import Mathlib

/-!
Shallow embedding of the order/checkout and affiliate-commission flow of the
Emerald-Secrets storefront (src/ecommerce/models.py, views.py,
affiliate_views.py), together with theorems checking the specification's
claims about it.

Monetary amounts (Django `DecimalField`s) are modelled as rationals;
`stock` is modelled as an integer because the Python-level decrement
`product.stock -= quantity` carries no floor check.
-/

namespace Emerald

/-- Embeds `Product` (models.py): the fields the checkout/cart flow reads. -/
structure Product where
  price : ℚ
  stock : ℤ
  is_active : Bool
deriving Repr, DecidableEq

/-- The catalog, indexed by product id.  Every foreign key in the source is
a valid product, so a total map is used. -/
abbrev Catalog := ℕ → Product

/-- Point update of the catalog, as `product.save()` after mutating one row. -/
def Catalog.update (cat : Catalog) (pid : ℕ) (p : Product) : Catalog :=
  fun i => if i = pid then p else cat i

/-- Embeds `OrderItem` (models.py): quantity and the unit-price snapshot.
`price` is `Option` because the model field may be unset before
`OrderItem.save` fills it from the product. -/
structure OrderItem where
  productId : ℕ
  quantity : ℕ
  price : Option ℚ
deriving Repr, DecidableEq

/-- Embeds `OrderItem.total_price` (models.py:197-205): uses the stored snapshot
price when set, falling back to the product's current catalog price. -/
def OrderItem.total_price (cat : Catalog) (i : OrderItem) : ℚ :=
  match i.price with
  | some p => p * i.quantity
  | none => (cat i.productId).price * i.quantity

/-- Truthiness of `self.price` in Python: `not self.price` holds when the
field is `None` or zero. -/
def OrderItem.priceFalsy (i : OrderItem) : Bool :=
  match i.price with
  | none => true
  | some p => p = 0

/-- The `if not self.price and self.product:` branch of `OrderItem.save`
(models.py:207-211): auto-set the price from the product. -/
def OrderItem.autoPrice (cat : Catalog) (i : OrderItem) : OrderItem :=
  if i.priceFalsy then { i with price := some (cat i.productId).price } else i

/-- Embeds `Order` (models.py): the total and the item lines; other columns
(shipping fields, status, order number) do not enter the claims. -/
structure Order where
  total_amount : ℚ
  items : List OrderItem
deriving Repr, DecidableEq

/-- Embeds `Order.calculate_total` (models.py:165-169): sum of the items'
`total_price`. -/
def Order.calculate_total (cat : Catalog) (o : Order) : ℚ :=
  (o.items.map (OrderItem.total_price cat)).sum

/-- Embeds `Order.save` (models.py:171-180): persist, then recompute and store
`total_amount` from the items. -/
def Order.save (cat : Catalog) (o : Order) : Order :=
  { o with total_amount := o.calculate_total cat }

/-- Embeds `OrderItem.objects.create(...)` → `OrderItem.save` (models.py:207-214):
auto-set the price if falsy, attach the item to the order, then re-save the
order so its total is recomputed. -/
def Order.createItem (cat : Catalog) (o : Order) (i : OrderItem) : Order :=
  Order.save cat { o with items := o.items ++ [i.autoPrice cat] }

/-- Embeds `AffiliateReferral.STATUS_CHOICES` (models.py:312-317). -/
inductive RefStatus where
  | pending
  | approved
  | paid
  | rejected
deriving Repr, DecidableEq

/-- Embeds `AffiliateProfile` (models.py:248-266): the fields the flow reads and
writes.  Timestamps are omitted; `approved_at`/`paid_at` on referrals are
modelled as set/unset flags. -/
structure AffiliateProfile where
  affiliate_code : String
  commission_rate : ℚ
  total_earnings : ℚ
  pending_earnings : ℚ
  withdrawn_earnings : ℚ
  is_approved : Bool
  is_active : Bool
deriving Repr, DecidableEq

/-- Embeds `AffiliateReferral` (models.py:310-332).  The `order` 1:1 link is kept
as the order number is not needed by any claim; `approved_at`/`paid_at`
become Booleans recording whether the timestamp has been set. -/
structure AffiliateReferral where
  commission_amount : ℚ
  status : RefStatus
  approved_at_set : Bool
  paid_at_set : Bool
deriving Repr, DecidableEq

/-- Embeds `AffiliateReferral.approve` (models.py:334-342): only from `pending`,
move to `approved`, stamp `approved_at`, add the commission to the
affiliate's pending and total earnings.  Returns the updated referral and
affiliate. -/
def AffiliateReferral.approve (r : AffiliateReferral) (a : AffiliateProfile) :
    AffiliateReferral × AffiliateProfile :=
  if r.status = .pending then
    ({ r with status := .approved, approved_at_set := true },
     { a with
        pending_earnings := a.pending_earnings + r.commission_amount,
        total_earnings := a.total_earnings + r.commission_amount })
  else (r, a)

/-- Embeds `AffiliateReferral.mark_as_paid` (models.py:344-352): only from
`approved`, move to `paid`, stamp `paid_at`, move the commission out of
pending earnings into withdrawn earnings. -/
def AffiliateReferral.mark_as_paid (r : AffiliateReferral) (a : AffiliateProfile) :
    AffiliateReferral × AffiliateProfile :=
  if r.status = .approved then
    ({ r with status := .paid, paid_at_set := true },
     { a with
        pending_earnings := a.pending_earnings - r.commission_amount,
        withdrawn_earnings := a.withdrawn_earnings + r.commission_amount })
  else (r, a)

/-- Embeds `AffiliateProfile.objects.get(affiliate_code=code, is_active=True,
is_approved=True)` (views.py:36-40, 427-431): lookup over the stored
profiles; `none` plays `AffiliateProfile.DoesNotExist`. -/
def lookupAffiliate (affs : List AffiliateProfile) (code : String) :
    Option AffiliateProfile :=
  affs.find? (fun a => a.affiliate_code = code && a.is_active && a.is_approved)

/-- One cart line as the checkout loop reads it: the product it points to
and the quantity. -/
structure CartLine where
  productId : ℕ
  quantity : ℕ
deriving Repr, DecidableEq

/-- Embeds `Cart.total_price` (models.py:104-109) and the checkout view's
`total_amount` (views.py:394): Σ product price × quantity at current
catalog prices. -/
def cartTotal (cat : Catalog) (cart : List CartLine) : ℚ :=
  (cart.map (fun l => (cat l.productId).price * l.quantity)).sum

/-- The per-line body of the checkout loop (views.py:411-422): create an
`OrderItem` carrying the current product price as snapshot, then decrement
that product's stock by the ordered quantity — no floor check. -/
def checkoutLine (s : Catalog × Order) (l : CartLine) : Catalog × Order :=
  let (cat, o) := s
  let o' := o.createItem cat
    { productId := l.productId, quantity := l.quantity,
      price := some (cat l.productId).price }
  let p := cat l.productId
  (cat.update l.productId { p with stock := p.stock - (l.quantity : ℤ) }, o')

/-- Everything the checkout handler leaves behind. -/
structure CheckoutResult where
  catalog : Catalog
  order : Order
  referral : Option AffiliateReferral
  referralAffiliate : Option AffiliateProfile
  cart : List CartLine

/-- Embeds `checkout` (views.py:376-455), successful POST path: compute the cart
total, create the order shell, run the item/stock loop, create a pending
referral when the session's affiliate code resolves to an active approved
profile (commission = cart total × rate / 100), then clear the cart. -/
def checkout (cat : Catalog) (affs : List AffiliateProfile)
    (cart : List CartLine) (sessionCode : Option String) : CheckoutResult :=
  let total_amount := cartTotal cat cart
  let shell : Order := Order.save cat { total_amount := 0, items := [] }
  let st := cart.foldl checkoutLine (cat, shell)
  let refAff : Option AffiliateProfile :=
    match sessionCode with
    | none => none
    | some code => lookupAffiliate affs code
  let referral : Option AffiliateReferral :=
    refAff.map (fun affiliate =>
      { commission_amount := total_amount * (affiliate.commission_rate / 100),
        status := .pending, approved_at_set := false, paid_at_set := false })
  { catalog := st.1, order := st.2, referral := referral,
    referralAffiliate := refAff, cart := [] }

/-- Flash-message outcomes of `add_to_cart` (views.py:299-318). -/
inductive AddToCartMsg where
  | addedNew
  | quantityUpdated
  | stockWarning
deriving Repr, DecidableEq

/-- Embeds `add_to_cart` (views.py:299-323) on one product: `existing` is the
cart line's quantity when a line for the product already exists.  A new
line is created with quantity 1 with no stock check; an existing line is
incremented only while its quantity is strictly below the product's stock,
otherwise a warning is surfaced and the quantity is left alone. -/
def add_to_cart (stock : ℤ) (existing : Option ℕ) : ℕ × AddToCartMsg :=
  match existing with
  | none => (1, .addedNew)
  | some q =>
    if (q : ℤ) < stock then (q + 1, .quantityUpdated)
    else (q, .stockWarning)

/-- Embeds `AffiliateClick` (models.py:293-300): the request data the tracker
stores. -/
structure AffiliateClick where
  affiliateCode : String
  productId : Option ℕ
  ip_address : String
  user_agent : String
  referrer : String
deriving Repr, DecidableEq

/-- The session state `track_affiliate_click` touches: the stored
affiliate code and the expiry (in seconds) set by `set_expiry`. -/
structure Session where
  affiliate_code : Option String
  expiry_seconds : Option ℕ
deriving Repr, DecidableEq

/-- Embeds `track_affiliate_click` (views.py:33-69): validate the code against an
active approved profile; on success record a click and store the code in
the session with a 30-day expiry; on `DoesNotExist` return `False` leaving
clicks and session untouched. -/
def track_affiliate_click (affs : List AffiliateProfile)
    (clicks : List AffiliateClick) (session : Session) (code : String)
    (ip ua referrer : String) (productId : Option ℕ) :
    Bool × List AffiliateClick × Session :=
  match lookupAffiliate affs code with
  | some _ =>
    (true,
     clicks ++ [{ affiliateCode := code, productId := productId,
                  ip_address := ip, user_agent := ua, referrer := referrer }],
     { affiliate_code := some code, expiry_seconds := some (30 * 24 * 60 * 60) })
  | none => (false, clicks, session)

/-- Embeds `AffiliateWithdrawal` (models.py:355-370): the fields the request
handler writes. -/
structure AffiliateWithdrawal where
  amount : ℚ
  status : String
deriving Repr, DecidableEq

/-- Outcomes of the withdrawal request handler. -/
inductive WithdrawMsg where
  | insufficientBalance
  | belowMinimum
  | submitted
deriving Repr, DecidableEq

/-- Embeds `affiliate_withdraw` (affiliate_views.py:129-144), valid-form POST
path: reject when the amount exceeds `pending_earnings`, then when it is
below the 500 minimum; otherwise append a withdrawal record.  The
affiliate row itself is returned unchanged, exactly as the handler leaves
it. -/
def affiliate_withdraw (a : AffiliateProfile)
    (withdrawals : List AffiliateWithdrawal) (amount : ℚ) :
    AffiliateProfile × List AffiliateWithdrawal × WithdrawMsg :=
  if a.pending_earnings < amount then (a, withdrawals, .insufficientBalance)
  else if amount < 500 then (a, withdrawals, .belowMinimum)
  else (a, withdrawals ++ [{ amount := amount, status := "pending" }], .submitted)

/-- An affiliate together with its referrals: the state the commission
state machine acts on. -/
structure LedgerState where
  affiliate : AffiliateProfile
  referrals : List AffiliateReferral
deriving Repr, DecidableEq

/-- The two admin-triggered transitions, naming a referral by its
position. -/
inductive LedgerOp where
  | approve (i : ℕ)
  | markPaid (i : ℕ)
deriving Repr, DecidableEq

/-- Apply one transition to the named referral, persisting both the
referral and the affiliate (the `self.affiliate.save(); self.save()` pair
in models.py:334-352).  An out-of-range index touches nothing. -/
def LedgerState.apply (s : LedgerState) (op : LedgerOp) : LedgerState :=
  match op with
  | .approve i =>
    match s.referrals.get? i with
    | none => s
    | some r =>
      let p := r.approve s.affiliate
      { affiliate := p.2, referrals := s.referrals.set i p.1 }
  | .markPaid i =>
    match s.referrals.get? i with
    | none => s
    | some r =>
      let p := r.mark_as_paid s.affiliate
      { affiliate := p.2, referrals := s.referrals.set i p.1 }

/-- Run a sequence of transitions. -/
def LedgerState.applyAll (s : LedgerState) (ops : List LedgerOp) : LedgerState :=
  ops.foldl LedgerState.apply s

/-- The earnings bookkeeping identity of an `AffiliateProfile`. -/
def AffiliateProfile.earningsInvariant (a : AffiliateProfile) : Prop :=
  a.total_earnings = a.pending_earnings + a.withdrawn_earnings

instance (a : AffiliateProfile) : Decidable a.earningsInvariant := by
  unfold AffiliateProfile.earningsInvariant
  infer_instance

/-- The contribution of an order item to the total, read off the stored
snapshot price. -/
def itemSnapTotal (i : OrderItem) : ℚ :=
  i.price.getD 0 * i.quantity

/-- Total quantity a cart orders of one product (several lines may name
the same product id in an arbitrary cart value). -/
def orderedQty (cart : List CartLine) (pid : ℕ) : ℕ :=
  ((cart.filter (fun l => l.productId = pid)).map CartLine.quantity).sum

/-- An order whose items all carry a stored snapshot price and whose
persisted total is the sum of those snapshot line totals. -/
def Order.snapInv (o : Order) : Prop :=
  (∀ i ∈ o.items, i.price.isSome) ∧
  o.total_amount = (o.items.map itemSnapTotal).sum

lemma autoPrice_isSome (cat : Catalog) (i : OrderItem) :
    (i.autoPrice cat).price.isSome := by
  unfold OrderItem.autoPrice
  split
  · simp
  · rename_i h
    unfold OrderItem.priceFalsy at h
    cases hp : i.price with
    | none => rw [hp] at h; simp at h
    | some p => simp [hp]

lemma autoPrice_snapshot (cat : Catalog) (pid q : ℕ) :
    OrderItem.autoPrice cat ⟨pid, q, some (cat pid).price⟩ =
      ⟨pid, q, some (cat pid).price⟩ := by
  unfold OrderItem.autoPrice
  split <;> rfl

lemma total_price_of_isSome (cat : Catalog) (i : OrderItem)
    (h : i.price.isSome) : OrderItem.total_price cat i = itemSnapTotal i := by
  cases hp : i.price with
  | none => rw [hp] at h; simp at h
  | some p => simp [OrderItem.total_price, itemSnapTotal, hp]

lemma calculate_total_of_isSome (cat : Catalog) (o : Order)
    (h : ∀ i ∈ o.items, i.price.isSome) :
    o.calculate_total cat = (o.items.map itemSnapTotal).sum := by
  unfold Order.calculate_total
  congr 1
  exact List.map_congr_left fun i hi => total_price_of_isSome cat i (h i hi)

lemma createItem_snapInv (cat : Catalog) (o : Order) (i : OrderItem)
    (h : ∀ j ∈ o.items, j.price.isSome) :
    (o.createItem cat i).snapInv := by
  have hall : ∀ j ∈ o.items ++ [i.autoPrice cat], j.price.isSome := by
    intro j hj
    rcases List.mem_append.mp hj with hj | hj
    · exact h j hj
    · rcases List.mem_singleton.mp hj with rfl
      exact autoPrice_isSome cat i
  constructor
  · exact hall
  · show Order.calculate_total cat _ = _
    exact calculate_total_of_isSome cat _ hall

lemma checkoutLine_snd (s : Catalog × Order) (l : CartLine) :
    (checkoutLine s l).2 = s.2.createItem s.1
      { productId := l.productId, quantity := l.quantity,
        price := some (s.1 l.productId).price } := by
  obtain ⟨cat, o⟩ := s
  rfl

lemma checkoutLine_fst_price (s : Catalog × Order) (l : CartLine) (i : ℕ) :
    ((checkoutLine s l).1 i).price = (s.1 i).price := by
  obtain ⟨cat, o⟩ := s
  show ((Catalog.update cat _ _) i).price = _
  unfold Catalog.update
  by_cases h : i = l.productId <;> simp [h]

lemma checkoutLine_fst_stock (s : Catalog × Order) (l : CartLine) (i : ℕ) :
    ((checkoutLine s l).1 i).stock =
      (s.1 i).stock - (if l.productId = i then (l.quantity : ℤ) else 0) := by
  obtain ⟨cat, o⟩ := s
  show ((Catalog.update cat _ _) i).stock = _
  unfold Catalog.update
  by_cases h : i = l.productId
  · simp [h]
  · have h2 : ¬ l.productId = i := fun hc => h hc.symm
    simp [h, h2]

lemma foldl_checkoutLine_price (cart : List CartLine) :
    ∀ (s : Catalog × Order) (i : ℕ),
      ((cart.foldl checkoutLine s).1 i).price = (s.1 i).price := by
  induction cart with
  | nil => intro s i; rfl
  | cons l rest ih =>
    intro s i
    rw [List.foldl_cons, ih (checkoutLine s l) i, checkoutLine_fst_price]

lemma foldl_checkoutLine_stock (cart : List CartLine) :
    ∀ (s : Catalog × Order) (i : ℕ),
      ((cart.foldl checkoutLine s).1 i).stock =
        (s.1 i).stock - (orderedQty cart i : ℤ) := by
  induction cart with
  | nil => intro s i; simp [orderedQty]
  | cons l rest ih =>
    intro s i
    rw [List.foldl_cons, ih (checkoutLine s l) i, checkoutLine_fst_stock]
    unfold orderedQty
    by_cases h : l.productId = i
    · simp only [List.filter_cons, h, if_true, decide_eq_true_eq, List.map_cons,
        List.sum_cons, decide_True, List.map_map]
      push_cast
      ring
    · simp only [List.filter_cons, h, decide_False, Bool.false_eq_true, if_false]
      ring

lemma foldl_checkoutLine_items (cart : List CartLine) :
    ∀ (s : Catalog × Order),
      ((cart.foldl checkoutLine s).2).items =
        s.2.items ++ cart.map (fun l =>
          { productId := l.productId, quantity := l.quantity,
            price := some ((s.1 l.productId).price) : OrderItem }) := by
  induction cart with
  | nil => intro s; simp
  | cons l rest ih =>
    intro s
    rw [List.foldl_cons, ih (checkoutLine s l)]
    have hmap : rest.map (fun l2 =>
        { productId := l2.productId, quantity := l2.quantity,
          price := some (((checkoutLine s l).1 l2.productId).price) : OrderItem }) =
        rest.map (fun l2 =>
        { productId := l2.productId, quantity := l2.quantity,
          price := some ((s.1 l2.productId).price) : OrderItem }) :=
      List.map_congr_left fun l2 _ => by rw [checkoutLine_fst_price]
    rw [hmap, checkoutLine_snd]
    show (Order.createItem s.1 s.2 _).items ++ _ = _
    unfold Order.createItem Order.save
    simp only [List.map_cons, List.append_assoc, List.cons_append,
      List.nil_append]
    rw [autoPrice_snapshot]

lemma foldl_checkoutLine_snapInv (cart : List CartLine) :
    ∀ (s : Catalog × Order), s.2.snapInv →
      ((cart.foldl checkoutLine s).2).snapInv := by
  induction cart with
  | nil => intro s h; exact h
  | cons l rest ih =>
    intro s h
    rw [List.foldl_cons]
    refine ih (checkoutLine s l) ?_
    rw [checkoutLine_snd]
    exact createItem_snapInv _ _ _ h.1

lemma checkout_order_eq (cat : Catalog) (affs : List AffiliateProfile)
    (cart : List CartLine) (code : Option String) :
    (checkout cat affs cart code).order =
      (cart.foldl checkoutLine
        (cat, Order.save cat { total_amount := 0, items := [] })).2 := rfl

lemma checkout_catalog_eq (cat : Catalog) (affs : List AffiliateProfile)
    (cart : List CartLine) (code : Option String) :
    (checkout cat affs cart code).catalog =
      (cart.foldl checkoutLine
        (cat, Order.save cat { total_amount := 0, items := [] })).1 := rfl

lemma shell_snapInv (cat : Catalog) :
    (Order.save cat { total_amount := 0, items := [] }).snapInv := by
  constructor
  · intro i hi
    simp [Order.save] at hi
  · rfl

lemma checkout_order_items (cat : Catalog) (affs : List AffiliateProfile)
    (cart : List CartLine) (code : Option String) :
    (checkout cat affs cart code).order.items =
      cart.map (fun l =>
        { productId := l.productId, quantity := l.quantity,
          price := some ((cat l.productId).price) : OrderItem }) := by
  rw [checkout_order_eq, foldl_checkoutLine_items]
  rfl

lemma checkout_order_snapInv (cat : Catalog) (affs : List AffiliateProfile)
    (cart : List CartLine) (code : Option String) :
    (checkout cat affs cart code).order.snapInv := by
  rw [checkout_order_eq]
  exact foldl_checkoutLine_snapInv cart _ (shell_snapInv cat)

lemma checkout_total_eq_cartTotal (cat : Catalog) (affs : List AffiliateProfile)
    (cart : List CartLine) (code : Option String) :
    (checkout cat affs cart code).order.total_amount = cartTotal cat cart := by
  rw [(checkout_order_snapInv cat affs cart code).2, checkout_order_items]
  unfold cartTotal
  rw [List.map_map]
  exact congrArg List.sum (List.map_congr_left fun l _ => rfl)

lemma checkout_referral_eq (cat : Catalog) (affs : List AffiliateProfile)
    (cart : List CartLine) (code : String) :
    (checkout cat affs cart (some code)).referral =
      (lookupAffiliate affs code).map (fun affiliate =>
        { commission_amount := cartTotal cat cart * (affiliate.commission_rate / 100),
          status := .pending, approved_at_set := false, paid_at_set := false }) := rfl

lemma approve_preserves_earningsInvariant (r : AffiliateReferral)
    (a : AffiliateProfile) (h : a.earningsInvariant) :
    (r.approve a).2.earningsInvariant := by
  unfold AffiliateReferral.approve
  by_cases hs : r.status = .pending
  · rw [if_pos hs]
    unfold AffiliateProfile.earningsInvariant at h ⊢
    show a.total_earnings + r.commission_amount = _
    rw [h]; ring
  · rw [if_neg hs]; exact h

lemma mark_as_paid_preserves_earningsInvariant (r : AffiliateReferral)
    (a : AffiliateProfile) (h : a.earningsInvariant) :
    (r.mark_as_paid a).2.earningsInvariant := by
  unfold AffiliateReferral.mark_as_paid
  by_cases hs : r.status = .approved
  · rw [if_pos hs]
    unfold AffiliateProfile.earningsInvariant at h ⊢
    show a.total_earnings = _
    rw [h]; ring
  · rw [if_neg hs]; exact h

lemma apply_preserves_earningsInvariant (s : LedgerState) (op : LedgerOp)
    (h : s.affiliate.earningsInvariant) :
    (s.apply op).affiliate.earningsInvariant := by
  cases op with
  | approve i =>
    cases hg : s.referrals.get? i with
    | none => simp only [LedgerState.apply, hg]; exact h
    | some r =>
      simp only [LedgerState.apply, hg]
      exact approve_preserves_earningsInvariant r s.affiliate h
  | markPaid i =>
    cases hg : s.referrals.get? i with
    | none => simp only [LedgerState.apply, hg]; exact h
    | some r =>
      simp only [LedgerState.apply, hg]
      exact mark_as_paid_preserves_earningsInvariant r s.affiliate h

lemma applyAll_preserves_earningsInvariant (ops : List LedgerOp) :
    ∀ s : LedgerState, s.affiliate.earningsInvariant →
      (s.applyAll ops).affiliate.earningsInvariant := by
  induction ops with
  | nil => intro s h; exact h
  | cons op rest ih =>
    intro s h
    exact ih (s.apply op) (apply_preserves_earningsInvariant s op h)

/-- C1: immediately after checkout, the order's items carry the product
prices at order-creation time as snapshots, `total_amount` equals the sum
over the order items of snapshot price × quantity, and recomputing the
total against any later catalog (in particular one with changed product
prices) still returns the stored total. -/
theorem C1_order_total_snapshot (cat : Catalog) (affs : List AffiliateProfile)
    (cart : List CartLine) (code : Option String) :
    (checkout cat affs cart code).order.items =
      cart.map (fun l =>
        { productId := l.productId, quantity := l.quantity,
          price := some ((cat l.productId).price) : OrderItem }) ∧
    (checkout cat affs cart code).order.total_amount =
      ((checkout cat affs cart code).order.items.map itemSnapTotal).sum ∧
    ∀ cat2 : Catalog,
      Order.calculate_total cat2 (checkout cat affs cart code).order =
        (checkout cat affs cart code).order.total_amount := by
  refine ⟨checkout_order_items cat affs cart code,
    (checkout_order_snapInv cat affs cart code).2, fun cat2 => ?_⟩
  rw [calculate_total_of_isSome cat2 _ (checkout_order_snapInv cat affs cart code).1,
    (checkout_order_snapInv cat affs cart code).2]

/-- C2: when the session's affiliate code resolves to an active, approved
profile, checkout creates exactly one referral, pending, with commission =
order total × rate / 100; when it does not resolve, no referral is
created. -/
theorem C2_checkout_affiliate_referral (cat : Catalog)
    (affs : List AffiliateProfile) (cart : List CartLine) (code : String) :
    (∀ aff : AffiliateProfile, lookupAffiliate affs code = some aff →
      (checkout cat affs cart (some code)).referral =
        some { commission_amount :=
                 (checkout cat affs cart (some code)).order.total_amount *
                   (aff.commission_rate / 100),
               status := .pending, approved_at_set := false,
               paid_at_set := false }) ∧
    (lookupAffiliate affs code = none →
      (checkout cat affs cart (some code)).referral = none) := by
  constructor
  · intro aff h
    rw [checkout_referral_eq, h, Option.map_some',
      checkout_total_eq_cartTotal]
  · intro h
    rw [checkout_referral_eq, h, Option.map_none']

/-- C2 at concrete data: a 5.00% affiliate on an order of total 1000.00
earns a pending referral of 50.00. -/
theorem C2_checkout_affiliate_referral_witness :
    (checkout (fun _ => { price := 1000, stock := 5, is_active := true })
        [{ affiliate_code := "AFF1", commission_rate := 5, total_earnings := 0,
           pending_earnings := 0, withdrawn_earnings := 0,
           is_approved := true, is_active := true }]
        [{ productId := 0, quantity := 1 }] (some "AFF1")).referral =
      some { commission_amount := 50, status := .pending,
             approved_at_set := false, paid_at_set := false } := by
  rw [(C2_checkout_affiliate_referral
        (fun _ => { price := 1000, stock := 5, is_active := true })
        [{ affiliate_code := "AFF1", commission_rate := 5, total_earnings := 0,
           pending_earnings := 0, withdrawn_earnings := 0,
           is_approved := true, is_active := true }]
        [{ productId := 0, quantity := 1 }] "AFF1").1
      { affiliate_code := "AFF1", commission_rate := 5, total_earnings := 0,
        pending_earnings := 0, withdrawn_earnings := 0,
        is_approved := true, is_active := true } (by decide),
    checkout_total_eq_cartTotal]
  simp only [Option.some.injEq, AffiliateReferral.mk.injEq, cartTotal,
    List.map_cons, List.map_nil, List.sum_cons, List.sum_nil]
  norm_num

/-- C3: on a pending referral, approve() moves the status to approved,
stamps approved_at, and adds the commission to pending and total earnings
exactly once — running approve() again on the result changes nothing, and
approve() on a referral that is not pending is a silent no-op. -/
theorem C3_approve_exactly_once (r : AffiliateReferral) (a : AffiliateProfile) :
    (r.status = .pending →
      (r.approve a).1.status = .approved ∧
      (r.approve a).1.approved_at_set = true ∧
      (r.approve a).2.pending_earnings = a.pending_earnings + r.commission_amount ∧
      (r.approve a).2.total_earnings = a.total_earnings + r.commission_amount ∧
      (r.approve a).1.approve (r.approve a).2 = r.approve a) ∧
    (r.status ≠ .pending → r.approve a = (r, a)) := by
  constructor
  · intro h
    have h1 : r.approve a =
        ({ r with status := .approved, approved_at_set := true },
         { a with
            pending_earnings := a.pending_earnings + r.commission_amount,
            total_earnings := a.total_earnings + r.commission_amount }) := by
      unfold AffiliateReferral.approve
      rw [if_pos h]
    rw [h1]
    refine ⟨rfl, rfl, rfl, rfl, ?_⟩
    unfold AffiliateReferral.approve
    rw [if_neg (by simp)]
  · intro h
    unfold AffiliateReferral.approve
    rw [if_neg h]

/-- C3 at concrete data: approving a pending 50.00 referral once credits
50.00 to pending and total earnings, and a second approve() is a no-op. -/
theorem C3_approve_exactly_once_witness :
    (({ commission_amount := 50, status := .pending, approved_at_set := false,
        paid_at_set := false } : AffiliateReferral).approve
      { affiliate_code := "AFF1", commission_rate := 5, total_earnings := 0,
        pending_earnings := 0, withdrawn_earnings := 0, is_approved := true,
        is_active := true }).1.status = .approved ∧
    (({ commission_amount := 50, status := .pending, approved_at_set := false,
        paid_at_set := false } : AffiliateReferral).approve
      { affiliate_code := "AFF1", commission_rate := 5, total_earnings := 0,
        pending_earnings := 0, withdrawn_earnings := 0, is_approved := true,
        is_active := true }).1.approved_at_set = true ∧
    (({ commission_amount := 50, status := .pending, approved_at_set := false,
        paid_at_set := false } : AffiliateReferral).approve
      { affiliate_code := "AFF1", commission_rate := 5, total_earnings := 0,
        pending_earnings := 0, withdrawn_earnings := 0, is_approved := true,
        is_active := true }).2.pending_earnings = 0 + 50 ∧
    (({ commission_amount := 50, status := .pending, approved_at_set := false,
        paid_at_set := false } : AffiliateReferral).approve
      { affiliate_code := "AFF1", commission_rate := 5, total_earnings := 0,
        pending_earnings := 0, withdrawn_earnings := 0, is_approved := true,
        is_active := true }).2.total_earnings = 0 + 50 ∧
    (({ commission_amount := 50, status := .pending, approved_at_set := false,
        paid_at_set := false } : AffiliateReferral).approve
      { affiliate_code := "AFF1", commission_rate := 5, total_earnings := 0,
        pending_earnings := 0, withdrawn_earnings := 0, is_approved := true,
        is_active := true }).1.approve
      (({ commission_amount := 50, status := .pending, approved_at_set := false,
          paid_at_set := false } : AffiliateReferral).approve
        { affiliate_code := "AFF1", commission_rate := 5, total_earnings := 0,
          pending_earnings := 0, withdrawn_earnings := 0, is_approved := true,
          is_active := true }).2 =
      ({ commission_amount := 50, status := .pending, approved_at_set := false,
         paid_at_set := false } : AffiliateReferral).approve
        { affiliate_code := "AFF1", commission_rate := 5, total_earnings := 0,
          pending_earnings := 0, withdrawn_earnings := 0, is_approved := true,
          is_active := true } :=
  (C3_approve_exactly_once
    { commission_amount := 50, status := .pending, approved_at_set := false,
      paid_at_set := false }
    { affiliate_code := "AFF1", commission_rate := 5, total_earnings := 0,
      pending_earnings := 0, withdrawn_earnings := 0, is_approved := true,
      is_active := true }).1 rfl

/-- C4: mark_as_paid() has effect only from the approved status: it moves
the referral to paid, stamps paid_at, moves the commission out of pending
earnings into withdrawn earnings, and leaves total earnings alone; from
any other status it is a silent no-op on referral and affiliate. -/
theorem C4_mark_as_paid_only_from_approved (r : AffiliateReferral)
    (a : AffiliateProfile) :
    (r.status = .approved →
      (r.mark_as_paid a).1.status = .paid ∧
      (r.mark_as_paid a).1.paid_at_set = true ∧
      (r.mark_as_paid a).2.pending_earnings =
        a.pending_earnings - r.commission_amount ∧
      (r.mark_as_paid a).2.withdrawn_earnings =
        a.withdrawn_earnings + r.commission_amount ∧
      (r.mark_as_paid a).2.total_earnings = a.total_earnings) ∧
    (r.status ≠ .approved → r.mark_as_paid a = (r, a)) := by
  constructor
  · intro h
    have h1 : r.mark_as_paid a =
        ({ r with status := .paid, paid_at_set := true },
         { a with
            pending_earnings := a.pending_earnings - r.commission_amount,
            withdrawn_earnings := a.withdrawn_earnings + r.commission_amount }) := by
      unfold AffiliateReferral.mark_as_paid
      rw [if_pos h]
    rw [h1]
    exact ⟨rfl, rfl, rfl, rfl, rfl⟩
  · intro h
    unfold AffiliateReferral.mark_as_paid
    rw [if_neg h]

/-- C4 at concrete data: paying an approved 50.00 referral moves 50.00
from pending into withdrawn earnings, and calling it from pending does
nothing. -/
theorem C4_mark_as_paid_witness :
    (({ commission_amount := 50, status := .approved, approved_at_set := true,
        paid_at_set := false } : AffiliateReferral).mark_as_paid
      { affiliate_code := "AFF1", commission_rate := 5, total_earnings := 50,
        pending_earnings := 50, withdrawn_earnings := 0, is_approved := true,
        is_active := true }).1.status = .paid ∧
    (({ commission_amount := 50, status := .approved, approved_at_set := true,
        paid_at_set := false } : AffiliateReferral).mark_as_paid
      { affiliate_code := "AFF1", commission_rate := 5, total_earnings := 50,
        pending_earnings := 50, withdrawn_earnings := 0, is_approved := true,
        is_active := true }).2.pending_earnings = 50 - 50 ∧
    (({ commission_amount := 50, status := .approved, approved_at_set := true,
        paid_at_set := false } : AffiliateReferral).mark_as_paid
      { affiliate_code := "AFF1", commission_rate := 5, total_earnings := 50,
        pending_earnings := 50, withdrawn_earnings := 0, is_approved := true,
        is_active := true }).2.withdrawn_earnings = 0 + 50 ∧
    (({ commission_amount := 50, status := .pending, approved_at_set := false,
        paid_at_set := false } : AffiliateReferral).mark_as_paid
      { affiliate_code := "AFF1", commission_rate := 5, total_earnings := 0,
        pending_earnings := 0, withdrawn_earnings := 0, is_approved := true,
        is_active := true }) =
      ({ commission_amount := 50, status := .pending, approved_at_set := false,
         paid_at_set := false },
       { affiliate_code := "AFF1", commission_rate := 5, total_earnings := 0,
         pending_earnings := 0, withdrawn_earnings := 0, is_approved := true,
         is_active := true }) := by
  have h1 := (C4_mark_as_paid_only_from_approved
    { commission_amount := 50, status := .approved, approved_at_set := true,
      paid_at_set := false }
    { affiliate_code := "AFF1", commission_rate := 5, total_earnings := 50,
      pending_earnings := 50, withdrawn_earnings := 0, is_approved := true,
      is_active := true }).1 rfl
  have h2 := (C4_mark_as_paid_only_from_approved
    { commission_amount := 50, status := .pending, approved_at_set := false,
      paid_at_set := false }
    { affiliate_code := "AFF1", commission_rate := 5, total_earnings := 0,
      pending_earnings := 0, withdrawn_earnings := 0, is_approved := true,
      is_active := true }).2 (by decide)
  exact ⟨h1.1, h1.2.2.1, h1.2.2.2.1, h2⟩

/-- C5: a withdrawal record is created (with a success message) exactly
when the requested amount is at least the 500 minimum and at most the
affiliate's pending earnings; otherwise the request is rejected and no
record is appended. -/
theorem C5_withdrawal_validation (a : AffiliateProfile)
    (ws : List AffiliateWithdrawal) (amount : ℚ) :
    (((affiliate_withdraw a ws amount).2.1 =
        ws ++ [{ amount := amount, status := "pending" }] ∧
      (affiliate_withdraw a ws amount).2.2 = .submitted) ↔
      (500 ≤ amount ∧ amount ≤ a.pending_earnings)) ∧
    (¬(500 ≤ amount ∧ amount ≤ a.pending_earnings) →
      (affiliate_withdraw a ws amount).2.1 = ws ∧
      (affiliate_withdraw a ws amount).2.2 ≠ .submitted) := by
  unfold affiliate_withdraw
  by_cases h1 : a.pending_earnings < amount
  · rw [if_pos h1]
    constructor
    · constructor
      · rintro ⟨-, hmsg⟩
        exact WithdrawMsg.noConfusion hmsg
      · rintro ⟨-, hle⟩
        exact absurd hle (not_le.mpr h1)
    · intro _
      exact ⟨rfl, fun hmsg => WithdrawMsg.noConfusion hmsg⟩
  · rw [if_neg h1]
    by_cases h2 : amount < 500
    · rw [if_pos h2]
      constructor
      · constructor
        · rintro ⟨-, hmsg⟩
          exact WithdrawMsg.noConfusion hmsg
        · rintro ⟨h500, -⟩
          exact absurd h500 (not_le.mpr h2)
      · intro _
        exact ⟨rfl, fun hmsg => WithdrawMsg.noConfusion hmsg⟩
    · rw [if_neg h2]
      constructor
      · constructor
        · intro _
          exact ⟨not_lt.mp h2, not_lt.mp h1⟩
        · intro _
          exact ⟨rfl, rfl⟩
      · intro hc
        exact absurd ⟨not_lt.mp h2, not_lt.mp h1⟩ hc

/-- C5 at the spec's own data points: with pending earnings 500, a 499
request is rejected, a 600 request is rejected, and a 500 request creates
the record. -/
theorem C5_withdrawal_validation_witness :
    (affiliate_withdraw
      { affiliate_code := "AFF1", commission_rate := 5, total_earnings := 500,
        pending_earnings := 500, withdrawn_earnings := 0, is_approved := true,
        is_active := true } [] 499).2.1 = [] ∧
    (affiliate_withdraw
      { affiliate_code := "AFF1", commission_rate := 5, total_earnings := 500,
        pending_earnings := 500, withdrawn_earnings := 0, is_approved := true,
        is_active := true } [] 600).2.1 = [] ∧
    (affiliate_withdraw
      { affiliate_code := "AFF1", commission_rate := 5, total_earnings := 500,
        pending_earnings := 500, withdrawn_earnings := 0, is_approved := true,
        is_active := true } [] 500).2.1 =
      [{ amount := 500, status := "pending" }] ∧
    (affiliate_withdraw
      { affiliate_code := "AFF1", commission_rate := 5, total_earnings := 500,
        pending_earnings := 500, withdrawn_earnings := 0, is_approved := true,
        is_active := true } [] 500).2.2 = .submitted := by
  refine ⟨((C5_withdrawal_validation
      { affiliate_code := "AFF1", commission_rate := 5, total_earnings := 500,
        pending_earnings := 500, withdrawn_earnings := 0, is_approved := true,
        is_active := true } [] 499).2 (by norm_num)).1,
    ((C5_withdrawal_validation
      { affiliate_code := "AFF1", commission_rate := 5, total_earnings := 500,
        pending_earnings := 500, withdrawn_earnings := 0, is_approved := true,
        is_active := true } [] 600).2 (by norm_num)).1,
    ?_, ?_⟩
  · exact ((C5_withdrawal_validation
      { affiliate_code := "AFF1", commission_rate := 5, total_earnings := 500,
        pending_earnings := 500, withdrawn_earnings := 0, is_approved := true,
        is_active := true } [] 500).1.mpr (by norm_num)).1
  · exact ((C5_withdrawal_validation
      { affiliate_code := "AFF1", commission_rate := 5, total_earnings := 500,
        pending_earnings := 500, withdrawn_earnings := 0, is_approved := true,
        is_active := true } [] 500).1.mpr (by norm_num)).2

/-- C6 as written is false: checkout decrements stock with no floor
check, so ordering quantity 1 of a product whose stock is 0 drives the
stock to -1. -/
theorem C6_stock_counterexample :
    ((checkout (fun _ => { price := 10, stock := 0, is_active := true })
        [] [{ productId := 0, quantity := 1 }] none).catalog 0).stock < 0 := by
  decide

/-- C6 amended: the checkout pipeline sets each product's stock to its
prior stock minus the total ordered quantity, with no floor check; the
resulting stock is non-negative exactly when the ordered quantity did not
exceed the prior stock. -/
theorem C6_stock_decrement (cat : Catalog) (affs : List AffiliateProfile)
    (cart : List CartLine) (code : Option String) (pid : ℕ) :
    ((checkout cat affs cart code).catalog pid).stock =
      (cat pid).stock - (orderedQty cart pid : ℤ) ∧
    ((orderedQty cart pid : ℤ) ≤ (cat pid).stock →
      0 ≤ ((checkout cat affs cart code).catalog pid).stock) := by
  have h : ((checkout cat affs cart code).catalog pid).stock =
      (cat pid).stock - (orderedQty cart pid : ℤ) := by
    rw [checkout_catalog_eq, foldl_checkoutLine_stock]
  refine ⟨h, fun hle => ?_⟩
  rw [h]
  exact sub_nonneg.mpr hle

/-- C6 amended, at concrete data: ordering 2 of a product with stock 5
leaves a non-negative stock. -/
theorem C6_stock_decrement_witness :
    0 ≤ ((checkout (fun _ => { price := 10, stock := 5, is_active := true })
        [] [{ productId := 0, quantity := 2 }] none).catalog 0).stock :=
  (C6_stock_decrement (fun _ => { price := 10, stock := 5, is_active := true })
    [] [{ productId := 0, quantity := 2 }] none 0).2 (by decide)

/-- C7 as written is false: a brand-new cart line is created with
quantity 1 without consulting stock, so with stock 0 the line's quantity
1 exceeds the stock. -/
theorem C7_add_to_cart_counterexample :
    add_to_cart 0 none = (1, .addedNew) ∧
    ¬((add_to_cart 0 none).1 : ℤ) ≤ 0 := by
  decide

/-- C7 amended: creating a new line always yields quantity 1 regardless
of stock; incrementing an existing line is clamped — it succeeds only
while the quantity is strictly below stock and otherwise surfaces a
warning leaving the quantity unchanged — so a line's quantity never
exceeds max(stock, 1) rather than stock itself. -/
theorem C7_add_to_cart_clamped (stock : ℤ) (existing : Option ℕ) :
    (add_to_cart stock none = (1, .addedNew)) ∧
    (∀ q : ℕ, existing = some q → (q : ℤ) < stock →
      add_to_cart stock existing = (q + 1, .quantityUpdated)) ∧
    (∀ q : ℕ, existing = some q → ¬(q : ℤ) < stock →
      add_to_cart stock existing = (q, .stockWarning)) ∧
    (∀ q : ℕ, existing = some q → (q : ℤ) ≤ max stock 1 →
      ((add_to_cart stock existing).1 : ℤ) ≤ max stock 1) ∧
    (((add_to_cart stock none).1 : ℤ) ≤ max stock 1) := by
  have he : ∀ q : ℕ, add_to_cart stock (some q) =
      if (q : ℤ) < stock then (q + 1, .quantityUpdated)
      else (q, .stockWarning) := fun q => rfl
  refine ⟨rfl, ?_, ?_, ?_, le_max_right stock 1⟩
  · rintro q rfl hlt
    rw [he q, if_pos hlt]
  · rintro q rfl hge
    rw [he q, if_neg hge]
  · rintro q rfl hq
    rw [he q]
    by_cases hlt : (q : ℤ) < stock
    · rw [if_pos hlt]
      push_cast
      exact le_trans (by exact_mod_cast Int.add_one_le_iff.mpr hlt)
        (le_max_left stock 1)
    · rw [if_neg hlt]
      exact hq

/-- C7 amended, at concrete data: with stock 3 and an existing line at
quantity 3, the increment is refused with the stock warning. -/
theorem C7_add_to_cart_clamped_witness :
    add_to_cart 3 (some 3) = (3, .stockWarning) :=
  (C7_add_to_cart_clamped 3 (some 3)).2.2.1 3 rfl (by decide)

/-- C8: a ref code that resolves to an active approved profile appends
exactly one click record and overwrites the session's affiliate code with
a 30-day (2592000 second) expiry, whatever was stored before; a code that
does not resolve changes neither the click log nor the session. -/
theorem C8_click_tracking (affs : List AffiliateProfile)
    (clicks : List AffiliateClick) (session : Session) (code : String)
    (ip ua referrer : String) (pid : Option ℕ) :
    (∀ aff : AffiliateProfile, lookupAffiliate affs code = some aff →
      track_affiliate_click affs clicks session code ip ua referrer pid =
        (true,
         clicks ++ [{ affiliateCode := code, productId := pid,
                      ip_address := ip, user_agent := ua,
                      referrer := referrer }],
         { affiliate_code := some code, expiry_seconds := some 2592000 })) ∧
    (lookupAffiliate affs code = none →
      track_affiliate_click affs clicks session code ip ua referrer pid =
        (false, clicks, session)) := by
  constructor
  · intro aff h
    unfold track_affiliate_click
    rw [h]
  · intro h
    unfold track_affiliate_click
    rw [h]

/-- C8 at concrete data: a valid code "A1" overwrites an older session
code and logs the click; an unknown code "NOPE" leaves everything
alone. -/
theorem C8_click_tracking_witness :
    track_affiliate_click
      [{ affiliate_code := "A1", commission_rate := 5, total_earnings := 0,
         pending_earnings := 0, withdrawn_earnings := 0, is_approved := true,
         is_active := true }]
      [] { affiliate_code := some "OLD", expiry_seconds := none }
      "A1" "1.2.3.4" "agent" "ref" none =
      (true,
       [{ affiliateCode := "A1", productId := none, ip_address := "1.2.3.4",
          user_agent := "agent", referrer := "ref" }],
       { affiliate_code := some "A1", expiry_seconds := some 2592000 }) ∧
    track_affiliate_click
      [{ affiliate_code := "A1", commission_rate := 5, total_earnings := 0,
         pending_earnings := 0, withdrawn_earnings := 0, is_approved := true,
         is_active := true }]
      [] { affiliate_code := some "OLD", expiry_seconds := none }
      "NOPE" "1.2.3.4" "agent" "ref" none =
      (false, [], { affiliate_code := some "OLD", expiry_seconds := none }) :=
  ⟨(C8_click_tracking
      [{ affiliate_code := "A1", commission_rate := 5, total_earnings := 0,
         pending_earnings := 0, withdrawn_earnings := 0, is_approved := true,
         is_active := true }]
      [] { affiliate_code := some "OLD", expiry_seconds := none }
      "A1" "1.2.3.4" "agent" "ref" none).1
      { affiliate_code := "A1", commission_rate := 5, total_earnings := 0,
        pending_earnings := 0, withdrawn_earnings := 0, is_approved := true,
        is_active := true } (by decide),
   (C8_click_tracking
      [{ affiliate_code := "A1", commission_rate := 5, total_earnings := 0,
         pending_earnings := 0, withdrawn_earnings := 0, is_approved := true,
         is_active := true }]
      [] { affiliate_code := some "OLD", expiry_seconds := none }
      "NOPE" "1.2.3.4" "agent" "ref" none).2 (by decide)⟩

/-- C9: from an affiliate whose earnings fields are all 0, every sequence
of approve()/mark_as_paid() calls on its referrals preserves
total_earnings = pending_earnings + withdrawn_earnings. -/
theorem C9_earnings_equation (a : AffiliateProfile)
    (refs : List AffiliateReferral) (ops : List LedgerOp)
    (h0 : a.total_earnings = 0) (h1 : a.pending_earnings = 0)
    (h2 : a.withdrawn_earnings = 0) :
    (LedgerState.applyAll { affiliate := a, referrals := refs }
      ops).affiliate.earningsInvariant := by
  refine applyAll_preserves_earningsInvariant ops _ ?_
  show a.earningsInvariant
  unfold AffiliateProfile.earningsInvariant
  rw [h0, h1, h2]
  ring

/-- C9 at concrete data: approving then paying a 50.00 referral keeps the
earnings equation. -/
theorem C9_earnings_equation_witness :
    (LedgerState.applyAll
      { affiliate :=
          { affiliate_code := "AFF1", commission_rate := 5,
            total_earnings := 0, pending_earnings := 0,
            withdrawn_earnings := 0, is_approved := true, is_active := true },
        referrals :=
          [{ commission_amount := 50, status := .pending,
             approved_at_set := false, paid_at_set := false }] }
      [.approve 0, .markPaid 0]).affiliate.earningsInvariant :=
  C9_earnings_equation
    { affiliate_code := "AFF1", commission_rate := 5, total_earnings := 0,
      pending_earnings := 0, withdrawn_earnings := 0, is_approved := true,
      is_active := true }
    [{ commission_amount := 50, status := .pending, approved_at_set := false,
       paid_at_set := false }]
    [.approve 0, .markPaid 0] rfl rfl rfl

/-- C10: the withdrawal request handler never touches the affiliate's
earnings fields — the profile row comes back unchanged in every branch —
and two accepted requests in a row each see the same undiminished
pending balance, leaving two pending records. -/
theorem C10_withdraw_frame (a : AffiliateProfile)
    (ws : List AffiliateWithdrawal) (amount : ℚ) :
    (affiliate_withdraw a ws amount).1 = a ∧
    (∀ a1 a2 : ℚ, 500 ≤ a1 → a1 ≤ a.pending_earnings →
      500 ≤ a2 → a2 ≤ a.pending_earnings →
      (affiliate_withdraw (affiliate_withdraw a ws a1).1
          (affiliate_withdraw a ws a1).2.1 a2).2.1 =
        ws ++ [{ amount := a1, status := "pending" },
               { amount := a2, status := "pending" }] ∧
      (affiliate_withdraw (affiliate_withdraw a ws a1).1
          (affiliate_withdraw a ws a1).2.1 a2).1 = a) := by
  have hframe : ∀ (ws2 : List AffiliateWithdrawal) (x : ℚ),
      (affiliate_withdraw a ws2 x).1 = a := by
    intro ws2 x
    unfold affiliate_withdraw
    by_cases h1 : a.pending_earnings < x
    · rw [if_pos h1]
    · rw [if_neg h1]
      by_cases h2 : x < 500
      · rw [if_pos h2]
      · rw [if_neg h2]
  refine ⟨hframe ws amount, ?_⟩
  intro a1 a2 h500a h1le h500b h2le
  have hsucc : ∀ (ws2 : List AffiliateWithdrawal) (x : ℚ),
      500 ≤ x → x ≤ a.pending_earnings →
      affiliate_withdraw a ws2 x =
        (a, ws2 ++ [{ amount := x, status := "pending" }], .submitted) := by
    intro ws2 x hx hxle
    unfold affiliate_withdraw
    rw [if_neg (not_lt.mpr hxle), if_neg (not_lt.mpr hx)]
  rw [hsucc ws a1 h500a h1le]
  dsimp only
  have h2 : affiliate_withdraw a (ws ++ [{ amount := a1, status := "pending" }]) a2 =
      (a, (ws ++ [{ amount := a1, status := "pending" }]) ++
        [{ amount := a2, status := "pending" }], .submitted) :=
    hsucc (ws ++ [{ amount := a1, status := "pending" }]) a2 h500b h2le
  rw [h2]
  simp [List.append_assoc]

/-- C10 at concrete data: with pending earnings 1000, two successive 500
requests are both accepted against the same balance and the profile is
unchanged. -/
theorem C10_withdraw_frame_witness :
    (affiliate_withdraw
      (affiliate_withdraw
        { affiliate_code := "AFF1", commission_rate := 5,
          total_earnings := 1000, pending_earnings := 1000,
          withdrawn_earnings := 0, is_approved := true, is_active := true }
        [] 500).1
      (affiliate_withdraw
        { affiliate_code := "AFF1", commission_rate := 5,
          total_earnings := 1000, pending_earnings := 1000,
          withdrawn_earnings := 0, is_approved := true, is_active := true }
        [] 500).2.1 500).2.1 =
      [{ amount := 500, status := "pending" },
       { amount := 500, status := "pending" }] ∧
    (affiliate_withdraw
      (affiliate_withdraw
        { affiliate_code := "AFF1", commission_rate := 5,
          total_earnings := 1000, pending_earnings := 1000,
          withdrawn_earnings := 0, is_approved := true, is_active := true }
        [] 500).1
      (affiliate_withdraw
        { affiliate_code := "AFF1", commission_rate := 5,
          total_earnings := 1000, pending_earnings := 1000,
          withdrawn_earnings := 0, is_approved := true, is_active := true }
        [] 500).2.1 500).1 =
      { affiliate_code := "AFF1", commission_rate := 5,
        total_earnings := 1000, pending_earnings := 1000,
        withdrawn_earnings := 0, is_approved := true, is_active := true } :=
  (C10_withdraw_frame
    { affiliate_code := "AFF1", commission_rate := 5, total_earnings := 1000,
      pending_earnings := 1000, withdrawn_earnings := 0, is_approved := true,
      is_active := true } [] 0).2 500 500 (by norm_num) (by norm_num)
    (by norm_num) (by norm_num)

end Emerald
